import Mathlib

/-!
Verification of the send-side RTP transport controller
(`call/rtp_transport_controller_send.cc`).

The controller's own logic (route-change tracking, propagation of merged
bitrate constraints, keepalive config storage, module lifecycle ordering)
is embedded from the source file.  Collaborator types that are declared
outside the repository snapshot (the network-route struct, the bitrate
constraints merger, the periodic process thread) are modelled from the
specification, each marked `Modelled from the spec:` in its doc comment.
-/

namespace WebrtcSend

/-- Modelled from the spec: `NetworkRoute` is
`{local_network_id, remote_network_id, connected : bool}` with structural
equality (ids + connected flag).  The struct itself lives in
`rtc_base/network_route.h`, outside the snapshot. -/
structure NetworkRoute where
  connected : Bool
  local_network_id : Nat
  remote_network_id : Nat
deriving DecidableEq, Repr

/-- Modelled from the spec: `BitrateConstraints` is a `{min, start, max}`
triple of signed integers, `0` meaning unset.  Declared outside the
snapshot. -/
structure BitrateConstraints where
  min_bitrate_bps : Int
  start_bitrate_bps : Int
  max_bitrate_bps : Int
deriving DecidableEq, Repr

/-- Modelled from the spec: `BitrateConstraintsMask` carries optional
overrides, any field may be absent.  Declared outside the snapshot. -/
structure BitrateConstraintsMask where
  min_bitrate_bps : Option Int
  start_bitrate_bps : Option Int
  max_bitrate_bps : Option Int
deriving DecidableEq, Repr

/-- Modelled from the spec: the keepalive config is an opaque blob with no
invariants beyond last-write-wins; we represent it by a single opaque
field.  Declared outside the snapshot. -/
structure RtpKeepAliveConfig where
  blob : Nat
deriving DecidableEq, Repr

/-- Modelled from the spec: the bitrate constraints merger holds a base
`BitrateConstraints` and a `BitrateConstraintsMask` (mask starts fully
absent).  Its implementation is outside the snapshot. -/
structure RtpBitrateConfigurator where
  base : BitrateConstraints
  mask : BitrateConstraintsMask
deriving DecidableEq, Repr

/-- Modelled from the spec: merge rule
`effective.field = mask.field if present else base.field`, applied
independently per field. -/
def applyMask (base : BitrateConstraints) (mask : BitrateConstraintsMask) :
    BitrateConstraints :=
  ⟨mask.min_bitrate_bps.getD base.min_bitrate_bps,
   mask.start_bitrate_bps.getD base.start_bitrate_bps,
   mask.max_bitrate_bps.getD base.max_bitrate_bps⟩

/-- The fully-absent mask the merger starts with. -/
def emptyMask : BitrateConstraintsMask := ⟨none, none, none⟩

/-- Modelled from the spec: the merger's current effective config (read by
the route-change reset path via `bitrate_configurator_.GetConfig()`). -/
def RtpBitrateConfigurator.GetConfig (c : RtpBitrateConfigurator) :
    BitrateConstraints :=
  applyMask c.base c.mask

/-- Modelled from the spec: `UpdateWithSdpParameters(new_base)` replaces
`base`, recomputes the effective config, and returns `some effective` only
if it differs from the previous effective config, else `none`.  Returns the
updated merger state together with the optional changed config. -/
def RtpBitrateConfigurator.UpdateWithSdpParameters
    (c : RtpBitrateConfigurator) (new_base : BitrateConstraints) :
    RtpBitrateConfigurator × Option BitrateConstraints :=
  let old := c.GetConfig
  let c2 : RtpBitrateConfigurator := { c with base := new_base }
  let eff := c2.GetConfig
  (c2, if eff = old then none else some eff)

/-- Modelled from the spec: `UpdateWithClientPreferences(new_mask)` replaces
`mask`; same differencing contract as `UpdateWithSdpParameters`. -/
def RtpBitrateConfigurator.UpdateWithClientPreferences
    (c : RtpBitrateConfigurator) (new_mask : BitrateConstraintsMask) :
    RtpBitrateConfigurator × Option BitrateConstraints :=
  let old := c.GetConfig
  let c2 : RtpBitrateConfigurator := { c with mask := new_mask }
  let eff := c2.GetConfig
  (c2, if eff = old then none else some eff)

/-- A downstream call pushed into the congestion controller / estimator
(`send_side_cc_`).  Only the calls made by the operations under study are
listed; an empty call list means "no downstream effect". -/
inductive CcCall where
  /-- `send_side_cc_->OnNetworkRouteChanged(route, start, min, max)` -/
  | onNetworkRouteChanged (route : NetworkRoute)
      (start_bps min_bps max_bps : Int)
  /-- `send_side_cc_->SetBweBitrates(min, start, max)` -/
  | setBweBitrates (min_bps start_bps max_bps : Int)
deriving DecidableEq, Repr

/-- Lookup in the `network_routes_` map (`std::map<std::string,
rtc::NetworkRoute>`), embedded as an association list. -/
def lookupRoute : List (String × NetworkRoute) → String → Option NetworkRoute
  | [], _ => none
  | (k, v) :: rest, name => if k = name then some v else lookupRoute rest name

/-- `std::map::insert`: inserts the pair only when the key is absent. -/
def insertRoute : List (String × NetworkRoute) → String → NetworkRoute →
    List (String × NetworkRoute)
  | [], name, r => [(name, r)]
  | (k, v) :: rest, name, r =>
      if k = name then (k, v) :: rest else (k, v) :: insertRoute rest name r

/-- In-place overwrite of the stored value for an existing key
(`kv->second = network_route`). -/
def updateRoute : List (String × NetworkRoute) → String → NetworkRoute →
    List (String × NetworkRoute)
  | [], _, _ => []
  | (k, v) :: rest, name, r =>
      if k = name then (k, r) :: rest else (k, v) :: updateRoute rest name r

/-- The controller state owned by `RtpTransportControllerSend`: the
per-transport route table `network_routes_`, the bitrate merger
`bitrate_configurator_`, and the stored keepalive config `keepalive_`. -/
structure RtpTransportControllerSend where
  network_routes : List (String × NetworkRoute)
  bitrate_configurator : RtpBitrateConfigurator
  keepalive : RtpKeepAliveConfig
deriving DecidableEq, Repr

/-- Result of one public-API operation: the post-state, the list of
downstream calls made into the estimator, and whether a fatal assertion
(`RTC_DCHECK`) fired.  Per the spec a contract violation is fatal, so a
step with `fatal = true` dispatches nothing further. -/
structure StepResult where
  state : RtpTransportControllerSend
  calls : List CcCall
  fatal : Bool
deriving DecidableEq, Repr

/-- Constructor state: `network_routes_` starts empty, the merger is seeded
with the initial bitrate config (mask fully absent), `keepalive_` is
default-constructed. -/
def initController (bitrate_config : BitrateConstraints) :
    RtpTransportControllerSend :=
  ⟨[], ⟨bitrate_config, emptyMask⟩, ⟨0⟩⟩

/-- `RtpTransportControllerSend::OnNetworkRouteChanged` (lines 98-136):
ignore disconnected routes; first observation inserts with no reset; an
unchanged route is a no-op; a changed route is overwritten, the current
effective config fetched, `RTC_DCHECK_GT(start, 0)` checked, and a full
reset pushed to `send_side_cc_`. -/
def RtpTransportControllerSend.OnNetworkRouteChanged
    (s : RtpTransportControllerSend) (transport_name : String)
    (network_route : NetworkRoute) : StepResult :=
  if network_route.connected = false then
    ⟨s, [], false⟩
  else
    match lookupRoute s.network_routes transport_name with
    | none =>
        ⟨{ s with network_routes :=
             insertRoute s.network_routes transport_name network_route },
         [], false⟩
    | some stored =>
        if stored ≠ network_route then
          let routes :=
            updateRoute s.network_routes transport_name network_route
          let bitrate_config := s.bitrate_configurator.GetConfig
          if bitrate_config.start_bitrate_bps > 0 then
            ⟨{ s with network_routes := routes },
             [CcCall.onNetworkRouteChanged network_route
                bitrate_config.start_bitrate_bps
                bitrate_config.min_bitrate_bps
                bitrate_config.max_bitrate_bps],
             false⟩
          else
            ⟨{ s with network_routes := routes }, [], true⟩
        else
          ⟨s, [], false⟩

/-- `RtpTransportControllerSend::SetSdpBitrateParameters` (lines 161-174):
feed the merger's base; if an updated config is returned push it via
`SetBweBitrates(min, start, max)`, else log and do nothing. -/
def RtpTransportControllerSend.SetSdpBitrateParameters
    (s : RtpTransportControllerSend) (constraints : BitrateConstraints) :
    StepResult :=
  let p := s.bitrate_configurator.UpdateWithSdpParameters constraints
  match p.2 with
  | some updated =>
      ⟨{ s with bitrate_configurator := p.1 },
       [CcCall.setBweBitrates updated.min_bitrate_bps
          updated.start_bitrate_bps updated.max_bitrate_bps],
       false⟩
  | none => ⟨{ s with bitrate_configurator := p.1 }, [], false⟩

/-- `RtpTransportControllerSend::SetClientBitratePreferences`
(lines 176-189): feed the merger's mask; same propagation contract. -/
def RtpTransportControllerSend.SetClientBitratePreferences
    (s : RtpTransportControllerSend) (preferences : BitrateConstraintsMask) :
    StepResult :=
  let p := s.bitrate_configurator.UpdateWithClientPreferences preferences
  match p.2 with
  | some updated =>
      ⟨{ s with bitrate_configurator := p.1 },
       [CcCall.setBweBitrates updated.min_bitrate_bps
          updated.start_bitrate_bps updated.max_bitrate_bps],
       false⟩
  | none => ⟨{ s with bitrate_configurator := p.1 }, [], false⟩

/-- `RtpTransportControllerSend::SetKeepAliveConfig` (lines 73-76): replace
the stored keepalive config; nothing else is touched, no downstream call. -/
def RtpTransportControllerSend.SetKeepAliveConfig
    (s : RtpTransportControllerSend) (config : RtpKeepAliveConfig) :
    StepResult :=
  ⟨{ s with keepalive := config }, [], false⟩

/-- `RtpTransportControllerSend::keepalive_config` accessor (lines 61-63). -/
def RtpTransportControllerSend.keepalive_config
    (s : RtpTransportControllerSend) : RtpKeepAliveConfig :=
  s.keepalive

/-- A public-API operation among those that touch controller-owned state. -/
inductive Op where
  | onNetworkRouteChanged (transport_name : String) (route : NetworkRoute)
  | setSdpBitrateParameters (constraints : BitrateConstraints)
  | setClientBitratePreferences (preferences : BitrateConstraintsMask)
  | setKeepAliveConfig (config : RtpKeepAliveConfig)
deriving DecidableEq, Repr

/-- Dispatch one operation against the controller state. -/
def applyOp (s : RtpTransportControllerSend) : Op → StepResult
  | Op.onNetworkRouteChanged name route => s.OnNetworkRouteChanged name route
  | Op.setSdpBitrateParameters c => s.SetSdpBitrateParameters c
  | Op.setClientBitratePreferences m => s.SetClientBitratePreferences m
  | Op.setKeepAliveConfig c => s.SetKeepAliveConfig c

/-- Run a sequence of operations, keeping only the final state. -/
def runOps (s : RtpTransportControllerSend) : List Op →
    RtpTransportControllerSend
  | [] => s
  | op :: rest => runOps (applyOp s op).state rest

/-- Whether an operation is a `SetKeepAliveConfig` call. -/
def Op.isSetKeepAlive : Op → Bool
  | Op.setKeepAliveConfig _ => true
  | _ => false

/-- The controller states reachable from the constructor through the
modelled public API. -/
inductive Reachable : RtpTransportControllerSend → Prop where
  | init (bitrate_config : BitrateConstraints) :
      Reachable (initController bitrate_config)
  | step (s : RtpTransportControllerSend) (op : Op) :
      Reachable s → Reachable (applyOp s op).state

/-- Identifier of a periodic module registered on the process thread. -/
inductive ModuleId where
  | pacer
  | send_side_cc
deriving DecidableEq, Repr

/-- A lifecycle event applied to the process thread. -/
inductive WorkerEvent where
  | registerModule (m : ModuleId)
  | deRegisterModule (m : ModuleId)
  | start
  | stop
deriving DecidableEq, Repr

/-- Modelled from the spec: the periodic worker's observable lifecycle
state — whether it is running and which modules are registered.  The
`ProcessThread` implementation is outside the snapshot; per the spec,
`Stop` blocks until no further ticks will be dispatched. -/
structure WorkerState where
  running : Bool
  modules : List ModuleId
deriving DecidableEq, Repr

/-- The worker before the constructor runs: stopped, nothing registered. -/
def initialWorker : WorkerState := ⟨false, []⟩

/-- Modelled from the spec: effect of one lifecycle event on the worker. -/
def workerStep (w : WorkerState) : WorkerEvent → WorkerState
  | WorkerEvent.registerModule m => ⟨w.running, m :: w.modules⟩
  | WorkerEvent.deRegisterModule m =>
      ⟨w.running, w.modules.filter (fun x => x ≠ m)⟩
  | WorkerEvent.start => ⟨true, w.modules⟩
  | WorkerEvent.stop => ⟨false, w.modules⟩

/-- Apply a list of lifecycle events in order. -/
def workerRun (w : WorkerState) : List WorkerEvent → WorkerState
  | [] => w
  | e :: rest => workerRun (workerStep w e) rest

/-- Modelled from the spec: a periodic tick of module `m` can be dispatched
only while the worker is running with `m` registered. -/
def canTick (w : WorkerState) (m : ModuleId) : Bool :=
  w.running && w.modules.contains m

/-- Worker lifecycle events issued by the constructor (lines 37-39):
register the pacer, register the congestion controller, start. -/
def ctorWorkerEvents : List WorkerEvent :=
  [WorkerEvent.registerModule ModuleId.pacer,
   WorkerEvent.registerModule ModuleId.send_side_cc,
   WorkerEvent.start]

/-- Worker lifecycle events issued by the destructor (lines 42-46): stop,
then deregister the congestion controller, then deregister the pacer. -/
def dtorWorkerEvents : List WorkerEvent :=
  [WorkerEvent.stop,
   WorkerEvent.deRegisterModule ModuleId.send_side_cc,
   WorkerEvent.deRegisterModule ModuleId.pacer]

/-- The modules named by the registration events of a trace, in order. -/
def registrations : List WorkerEvent → List ModuleId
  | [] => []
  | WorkerEvent.registerModule m :: rest => m :: registrations rest
  | _ :: rest => registrations rest

/-- The modules named by the deregistration events of a trace, in order. -/
def deregistrations : List WorkerEvent → List ModuleId
  | [] => []
  | WorkerEvent.deRegisterModule m :: rest => m :: deregistrations rest
  | _ :: rest => deregistrations rest

/-! ### Helper lemmas about the route table -/

theorem lookupRoute_updateRoute_self (m : List (String × NetworkRoute))
    (name : String) (r : NetworkRoute)
    (h : (lookupRoute m name).isSome = true) :
    lookupRoute (updateRoute m name r) name = some r := by
  induction m with
  | nil => simp [lookupRoute] at h
  | cons kv rest ih =>
    obtain ⟨k, v⟩ := kv
    by_cases hk : k = name
    · simp [lookupRoute, updateRoute, hk]
    · simp [lookupRoute, updateRoute, hk] at h ⊢
      exact ih h

theorem lookupRoute_updateRoute_ne (m : List (String × NetworkRoute))
    (name n : String) (r : NetworkRoute) (h : n ≠ name) :
    lookupRoute (updateRoute m name r) n = lookupRoute m n := by
  induction m with
  | nil => simp [updateRoute]
  | cons kv rest ih =>
    obtain ⟨k, v⟩ := kv
    by_cases hk : k = name
    · subst hk
      have hkn : ¬ k = n := fun hc => h hc.symm
      simp [lookupRoute, updateRoute, hkn]
    · simp only [updateRoute, if_neg hk]
      by_cases hn : k = n
      · simp [lookupRoute, hn]
      · simp [lookupRoute, hn, ih]

theorem lookupRoute_insertRoute_self (m : List (String × NetworkRoute))
    (name : String) (r : NetworkRoute)
    (h : lookupRoute m name = none) :
    lookupRoute (insertRoute m name r) name = some r := by
  induction m with
  | nil => simp [insertRoute, lookupRoute]
  | cons kv rest ih =>
    obtain ⟨k, v⟩ := kv
    by_cases hk : k = name
    · simp [lookupRoute, hk] at h
    · simp [lookupRoute, insertRoute, hk] at h ⊢
      exact ih h

theorem lookupRoute_insertRoute_ne (m : List (String × NetworkRoute))
    (name n : String) (r : NetworkRoute) (h : n ≠ name) :
    lookupRoute (insertRoute m name r) n = lookupRoute m n := by
  induction m with
  | nil =>
    have hkn : ¬ name = n := fun hc => h hc.symm
    simp [insertRoute, lookupRoute, hkn]
  | cons kv rest ih =>
    obtain ⟨k, v⟩ := kv
    by_cases hk : k = name
    · simp [insertRoute, hk]
    · simp only [insertRoute, if_neg hk]
      by_cases hn : k = n
      · simp [lookupRoute, hn]
      · simp [lookupRoute, hn, ih]

theorem mem_insertRoute (m : List (String × NetworkRoute))
    (name n : String) (route r : NetworkRoute)
    (h : (n, r) ∈ insertRoute m name route) :
    (n, r) ∈ m ∨ r = route := by
  induction m with
  | nil =>
    simp [insertRoute] at h
    exact Or.inr h.2
  | cons kv rest ih =>
    obtain ⟨k, v⟩ := kv
    by_cases hk : k = name
    · simp only [insertRoute, if_pos hk] at h
      exact Or.inl h
    · simp only [insertRoute, if_neg hk, List.mem_cons] at h
      rcases h with h | h
      · exact Or.inl (List.mem_cons.2 (Or.inl h))
      · rcases ih h with h2 | h2
        · exact Or.inl (List.mem_cons.2 (Or.inr h2))
        · exact Or.inr h2

theorem mem_updateRoute (m : List (String × NetworkRoute))
    (name n : String) (route r : NetworkRoute)
    (h : (n, r) ∈ updateRoute m name route) :
    (n, r) ∈ m ∨ r = route := by
  induction m with
  | nil =>
    simp [updateRoute] at h
  | cons kv rest ih =>
    obtain ⟨k, v⟩ := kv
    by_cases hk : k = name
    · simp only [updateRoute, if_pos hk, List.mem_cons] at h
      rcases h with h | h
      · exact Or.inr (congrArg Prod.snd h)
      · exact Or.inl (List.mem_cons.2 (Or.inr h))
    · simp only [updateRoute, if_neg hk, List.mem_cons] at h
      rcases h with h | h
      · exact Or.inl (List.mem_cons.2 (Or.inl h))
      · rcases ih h with h2 | h2
        · exact Or.inl (List.mem_cons.2 (Or.inr h2))
        · exact Or.inr h2

/-! ### Sample values used by witnesses -/

/-- The concrete initial config of the spec's concrete scenario. -/
def sampleConfig : BitrateConstraints := ⟨50000, 300000, 2500000⟩

/-- A config whose effective start bitrate is non-positive. -/
def badConfig : BitrateConstraints := ⟨50000, 0, 2500000⟩

/-- A connected route. -/
def sampleRoute1 : NetworkRoute := ⟨true, 1, 1⟩

/-- A connected route differing from `sampleRoute1` in the remote id. -/
def sampleRoute2 : NetworkRoute := ⟨true, 1, 2⟩

/-- A controller already holding `sampleRoute1` for transport "t1". -/
def sampleState : RtpTransportControllerSend :=
  ⟨[("t1", sampleRoute1)], ⟨sampleConfig, emptyMask⟩, ⟨0⟩⟩

/-- A controller holding `sampleRoute1` for "t1" but with a non-positive
effective start bitrate. -/
def badState : RtpTransportControllerSend :=
  ⟨[("t1", sampleRoute1)], ⟨badConfig, emptyMask⟩, ⟨0⟩⟩

/-- A disconnected route. -/
def discRoute : NetworkRoute := ⟨false, 3, 4⟩

/-! ### Claim theorems -/

/-- C1: for every transport name with a stored route `r1` and every
connected route `r2 ≠ r1`, `OnNetworkRouteChanged name r2` overwrites the
stored route with `r2` (leaving other entries untouched) and makes exactly
one downstream call — the estimator reset carrying `r2` and the current
effective config's start, min and max — under the documented
programming contract that the effective start bitrate is positive. -/
theorem C1_reset_on_route_change
    (s : RtpTransportControllerSend) (name : String) (r1 r2 : NetworkRoute)
    (hstored : lookupRoute s.network_routes name = some r1)
    (hconn : r2.connected = true) (hne : r2 ≠ r1)
    (hstart : 0 < s.bitrate_configurator.GetConfig.start_bitrate_bps) :
    (s.OnNetworkRouteChanged name r2).state.network_routes =
        updateRoute s.network_routes name r2 ∧
    lookupRoute (s.OnNetworkRouteChanged name r2).state.network_routes name =
        some r2 ∧
    (∀ n, n ≠ name →
        lookupRoute (s.OnNetworkRouteChanged name r2).state.network_routes n =
          lookupRoute s.network_routes n) ∧
    (s.OnNetworkRouteChanged name r2).calls =
        [CcCall.onNetworkRouteChanged r2
           s.bitrate_configurator.GetConfig.start_bitrate_bps
           s.bitrate_configurator.GetConfig.min_bitrate_bps
           s.bitrate_configurator.GetConfig.max_bitrate_bps] ∧
    (s.OnNetworkRouteChanged name r2).fatal = false := by
  have hne' : r1 ≠ r2 := fun hc => hne hc.symm
  have hres : s.OnNetworkRouteChanged name r2 =
      ⟨{ s with network_routes := updateRoute s.network_routes name r2 },
       [CcCall.onNetworkRouteChanged r2
          s.bitrate_configurator.GetConfig.start_bitrate_bps
          s.bitrate_configurator.GetConfig.min_bitrate_bps
          s.bitrate_configurator.GetConfig.max_bitrate_bps],
       false⟩ := by
    simp [RtpTransportControllerSend.OnNetworkRouteChanged, hconn, hstored,
          hne', hstart]
  refine ⟨by rw [hres], ?_, ?_, by rw [hres], by rw [hres]⟩
  · rw [hres]
    exact lookupRoute_updateRoute_self _ _ _ (by rw [hstored]; rfl)
  · intro n hn
    rw [hres]
    exact lookupRoute_updateRoute_ne _ _ _ _ hn

/-- Witness for C1 on the spec's concrete scenario. -/
theorem C1_reset_on_route_change_witness :
    (sampleState.OnNetworkRouteChanged "t1" sampleRoute2).calls =
      [CcCall.onNetworkRouteChanged sampleRoute2 300000 50000 2500000] := by
  exact (C1_reset_on_route_change sampleState "t1" sampleRoute1 sampleRoute2
    rfl rfl (by decide) (by decide)).2.2.2.1

/-- C2: a connected route triggers no reset when the transport name is new
(the route is inserted as the stored baseline) or when the stored route is
structurally equal (nothing is mutated, no downstream call). -/
theorem C2_no_reset_on_first_or_equal
    (s : RtpTransportControllerSend) (name : String) (r : NetworkRoute)
    (hconn : r.connected = true) :
    (lookupRoute s.network_routes name = none →
        s.OnNetworkRouteChanged name r =
          ⟨{ s with network_routes := insertRoute s.network_routes name r },
           [], false⟩ ∧
        lookupRoute
          (s.OnNetworkRouteChanged name r).state.network_routes name =
            some r) ∧
    (lookupRoute s.network_routes name = some r →
        s.OnNetworkRouteChanged name r = ⟨s, [], false⟩) := by
  constructor
  · intro hnone
    have hres : s.OnNetworkRouteChanged name r =
        ⟨{ s with network_routes := insertRoute s.network_routes name r },
         [], false⟩ := by
      simp [RtpTransportControllerSend.OnNetworkRouteChanged, hconn, hnone]
    exact ⟨hres, by rw [hres]; exact lookupRoute_insertRoute_self _ _ _ hnone⟩
  · intro hsome
    simp [RtpTransportControllerSend.OnNetworkRouteChanged, hconn, hsome]

/-- Witness for C2: first observation of "t1" inserts and makes no call. -/
theorem C2_no_reset_on_first_or_equal_witness :
    (initController sampleConfig).OnNetworkRouteChanged "t1" sampleRoute1 =
      ⟨{ initController sampleConfig with
           network_routes :=
             insertRoute (initController sampleConfig).network_routes
               "t1" sampleRoute1 },
       [], false⟩ :=
  ((C2_no_reset_on_first_or_equal (initController sampleConfig) "t1"
      sampleRoute1 rfl).1 rfl).1

/-- C3: a disconnected route observation leaves the whole controller state
unchanged and makes no downstream call — the operation only logs and
returns. -/
theorem C3_disconnected_route_ignored
    (s : RtpTransportControllerSend) (name : String) (r : NetworkRoute)
    (hdisc : r.connected = false) :
    s.OnNetworkRouteChanged name r = ⟨s, [], false⟩ := by
  simp [RtpTransportControllerSend.OnNetworkRouteChanged, hdisc]

/-- Witness for C3 on a stored-route state. -/
theorem C3_disconnected_route_ignored_witness :
    sampleState.OnNetworkRouteChanged "t1" discRoute =
      ⟨sampleState, [], false⟩ :=
  C3_disconnected_route_ignored sampleState "t1" discRoute rfl

/-- C5: under the programming contract that the merger's effective start
bitrate is positive, `OnNetworkRouteChanged` never reaches the fatal
assertion branch, and every reset it dispatches carries a positive start
bitrate (a malformed reset is never dispatched). -/
theorem C5_positive_start_contract
    (s : RtpTransportControllerSend) (name : String) (r : NetworkRoute)
    (hstart : 0 < s.bitrate_configurator.GetConfig.start_bitrate_bps) :
    (s.OnNetworkRouteChanged name r).fatal = false ∧
    ∀ rt st mn mx,
      CcCall.onNetworkRouteChanged rt st mn mx ∈
        (s.OnNetworkRouteChanged name r).calls → 0 < st := by
  by_cases hc : r.connected = false
  · simp [RtpTransportControllerSend.OnNetworkRouteChanged, hc]
  · have hc2 : r.connected = true := by
      revert hc; cases r.connected <;> simp
    cases hlk : lookupRoute s.network_routes name with
    | none =>
      simp [RtpTransportControllerSend.OnNetworkRouteChanged, hc2, hlk]
    | some stored =>
      by_cases heq : stored = r
      · simp [RtpTransportControllerSend.OnNetworkRouteChanged, hc2, hlk, heq]
      · have hres : s.OnNetworkRouteChanged name r =
            ⟨{ s with network_routes :=
                 updateRoute s.network_routes name r },
             [CcCall.onNetworkRouteChanged r
                s.bitrate_configurator.GetConfig.start_bitrate_bps
                s.bitrate_configurator.GetConfig.min_bitrate_bps
                s.bitrate_configurator.GetConfig.max_bitrate_bps],
             false⟩ := by
          simp [RtpTransportControllerSend.OnNetworkRouteChanged, hc2, hlk,
                heq, hstart]
        rw [hres]
        refine ⟨rfl, ?_⟩
        intro rt st mn mx h
        simp only [List.mem_singleton, CcCall.onNetworkRouteChanged.injEq]
          at h
        rw [h.2.1]
        exact hstart

/-- Witness for C5 at a positive-start configuration. -/
theorem C5_positive_start_contract_witness :
    (sampleState.OnNetworkRouteChanged "t1" sampleRoute2).fatal = false :=
  (C5_positive_start_contract sampleState "t1" sampleRoute2 (by decide)).1

/-- C10: on the changed-route branch the stored entry is overwritten before
the contract check, so when the effective start bitrate is non-positive the
fatal path is taken with the route table already holding the new route and
no reset dispatched — the operation is not atomic with respect to that
failure. -/
theorem C10_overwrite_precedes_contract_check
    (s : RtpTransportControllerSend) (name : String) (r1 r2 : NetworkRoute)
    (hstored : lookupRoute s.network_routes name = some r1)
    (hconn : r2.connected = true) (hne : r2 ≠ r1)
    (hstart : s.bitrate_configurator.GetConfig.start_bitrate_bps ≤ 0) :
    (s.OnNetworkRouteChanged name r2).fatal = true ∧
    lookupRoute (s.OnNetworkRouteChanged name r2).state.network_routes name =
        some r2 ∧
    (s.OnNetworkRouteChanged name r2).calls = [] := by
  have hne' : r1 ≠ r2 := fun hc => hne hc.symm
  have hnp : ¬ (0 < s.bitrate_configurator.GetConfig.start_bitrate_bps) :=
    not_lt.2 hstart
  have hres : s.OnNetworkRouteChanged name r2 =
      ⟨{ s with network_routes := updateRoute s.network_routes name r2 },
       [], true⟩ := by
    simp [RtpTransportControllerSend.OnNetworkRouteChanged, hconn, hstored,
          hne', hnp]
  refine ⟨by rw [hres], ?_, by rw [hres]⟩
  rw [hres]
  exact lookupRoute_updateRoute_self _ _ _ (by rw [hstored]; rfl)

/-- Witness for C10 at a zero start bitrate. -/
theorem C10_overwrite_precedes_contract_check_witness :
    (badState.OnNetworkRouteChanged "t1" sampleRoute2).fatal = true ∧
    lookupRoute
      (badState.OnNetworkRouteChanged "t1"
        sampleRoute2).state.network_routes "t1" = some sampleRoute2 ∧
    (badState.OnNetworkRouteChanged "t1" sampleRoute2).calls = [] :=
  C10_overwrite_precedes_contract_check badState "t1" sampleRoute1
    sampleRoute2 rfl rfl (by decide) (by decide)

/-! ### Shape lemmas: which parts of the state each operation can touch -/

theorem OnNetworkRouteChanged_keepalive (s : RtpTransportControllerSend)
    (name : String) (r : NetworkRoute) :
    (s.OnNetworkRouteChanged name r).state.keepalive = s.keepalive := by
  by_cases hc : r.connected = false
  · simp [RtpTransportControllerSend.OnNetworkRouteChanged, hc]
  · have hc2 : r.connected = true := by revert hc; cases r.connected <;> simp
    cases hlk : lookupRoute s.network_routes name with
    | none =>
      simp [RtpTransportControllerSend.OnNetworkRouteChanged, hc2, hlk]
    | some stored =>
      by_cases heq : stored = r
      · simp [RtpTransportControllerSend.OnNetworkRouteChanged, hc2, hlk, heq]
      · by_cases hs : 0 < s.bitrate_configurator.GetConfig.start_bitrate_bps
        · simp [RtpTransportControllerSend.OnNetworkRouteChanged, hc2, hlk,
                heq, hs]
        · simp [RtpTransportControllerSend.OnNetworkRouteChanged, hc2, hlk,
                heq, hs]

theorem SetSdpBitrateParameters_keepalive (s : RtpTransportControllerSend)
    (c : BitrateConstraints) :
    (s.SetSdpBitrateParameters c).state.keepalive = s.keepalive := by
  cases hp : (s.bitrate_configurator.UpdateWithSdpParameters c).2 with
  | none => simp [RtpTransportControllerSend.SetSdpBitrateParameters, hp]
  | some u => simp [RtpTransportControllerSend.SetSdpBitrateParameters, hp]

theorem SetClientBitratePreferences_keepalive
    (s : RtpTransportControllerSend) (m : BitrateConstraintsMask) :
    (s.SetClientBitratePreferences m).state.keepalive = s.keepalive := by
  cases hp : (s.bitrate_configurator.UpdateWithClientPreferences m).2 with
  | none => simp [RtpTransportControllerSend.SetClientBitratePreferences, hp]
  | some u => simp [RtpTransportControllerSend.SetClientBitratePreferences, hp]

theorem SetSdpBitrateParameters_routes (s : RtpTransportControllerSend)
    (c : BitrateConstraints) :
    (s.SetSdpBitrateParameters c).state.network_routes = s.network_routes :=
  by
  cases hp : (s.bitrate_configurator.UpdateWithSdpParameters c).2 with
  | none => simp [RtpTransportControllerSend.SetSdpBitrateParameters, hp]
  | some u => simp [RtpTransportControllerSend.SetSdpBitrateParameters, hp]

theorem SetClientBitratePreferences_routes (s : RtpTransportControllerSend)
    (m : BitrateConstraintsMask) :
    (s.SetClientBitratePreferences m).state.network_routes =
      s.network_routes := by
  cases hp : (s.bitrate_configurator.UpdateWithClientPreferences m).2 with
  | none => simp [RtpTransportControllerSend.SetClientBitratePreferences, hp]
  | some u => simp [RtpTransportControllerSend.SetClientBitratePreferences, hp]

theorem SetSdpBitrateParameters_configurator
    (s : RtpTransportControllerSend) (c : BitrateConstraints) :
    (s.SetSdpBitrateParameters c).state.bitrate_configurator =
      { s.bitrate_configurator with base := c } := by
  simp only [RtpTransportControllerSend.SetSdpBitrateParameters]
  split <;> rfl

theorem SetSdpBitrateParameters_calls_of_none (s : RtpTransportControllerSend)
    (c : BitrateConstraints)
    (h : (s.bitrate_configurator.UpdateWithSdpParameters c).2 = none) :
    (s.SetSdpBitrateParameters c).calls = [] := by
  simp [RtpTransportControllerSend.SetSdpBitrateParameters, h]

theorem keepalive_applyOp (s : RtpTransportControllerSend) (op : Op)
    (h : op.isSetKeepAlive = false) :
    (applyOp s op).state.keepalive = s.keepalive := by
  cases op with
  | onNetworkRouteChanged name route =>
    exact OnNetworkRouteChanged_keepalive s name route
  | setSdpBitrateParameters c => exact SetSdpBitrateParameters_keepalive s c
  | setClientBitratePreferences m =>
    exact SetClientBitratePreferences_keepalive s m
  | setKeepAliveConfig c => simp [Op.isSetKeepAlive] at h

theorem mem_OnNetworkRouteChanged_routes (s : RtpTransportControllerSend)
    (name : String) (route : NetworkRoute) (n : String) (r : NetworkRoute)
    (h : (n, r) ∈ (s.OnNetworkRouteChanged name route).state.network_routes) :
    (n, r) ∈ s.network_routes ∨ (r = route ∧ route.connected = true) := by
  by_cases hc : route.connected = false
  · simp [RtpTransportControllerSend.OnNetworkRouteChanged, hc] at h
    exact Or.inl h
  · have hc2 : route.connected = true := by
      revert hc; cases route.connected <;> simp
    cases hlk : lookupRoute s.network_routes name with
    | none =>
      simp [RtpTransportControllerSend.OnNetworkRouteChanged, hc2, hlk] at h
      rcases mem_insertRoute _ _ _ _ _ h with h2 | h2
      · exact Or.inl h2
      · exact Or.inr ⟨h2, hc2⟩
    | some stored =>
      by_cases heq : stored = route
      · simp [RtpTransportControllerSend.OnNetworkRouteChanged, hc2, hlk,
              heq] at h
        exact Or.inl h
      · by_cases hs : 0 < s.bitrate_configurator.GetConfig.start_bitrate_bps
        · simp [RtpTransportControllerSend.OnNetworkRouteChanged, hc2, hlk,
                heq, hs] at h
          rcases mem_updateRoute _ _ _ _ _ h with h2 | h2
          · exact Or.inl h2
          · exact Or.inr ⟨h2, hc2⟩
        · simp [RtpTransportControllerSend.OnNetworkRouteChanged, hc2, hlk,
                heq, hs] at h
          rcases mem_updateRoute _ _ _ _ _ h with h2 | h2
          · exact Or.inl h2
          · exact Or.inr ⟨h2, hc2⟩

/-- C4: the two bitrate-update operations push `SetBweBitrates` exactly
when the merger reports a changed effective config, make no call when it
reports none, and a second `SetSdpBitrateParameters` with the same
constraints never propagates. -/
theorem C4_change_detection_propagation (s : RtpTransportControllerSend)
    (c : BitrateConstraints) (m : BitrateConstraintsMask) :
    ((s.bitrate_configurator.UpdateWithSdpParameters c).2 = none →
        (s.SetSdpBitrateParameters c).calls = []) ∧
    (∀ u, (s.bitrate_configurator.UpdateWithSdpParameters c).2 = some u →
        (s.SetSdpBitrateParameters c).calls =
          [CcCall.setBweBitrates u.min_bitrate_bps u.start_bitrate_bps
             u.max_bitrate_bps]) ∧
    ((s.bitrate_configurator.UpdateWithClientPreferences m).2 = none →
        (s.SetClientBitratePreferences m).calls = []) ∧
    (∀ u, (s.bitrate_configurator.UpdateWithClientPreferences m).2 = some u →
        (s.SetClientBitratePreferences m).calls =
          [CcCall.setBweBitrates u.min_bitrate_bps u.start_bitrate_bps
             u.max_bitrate_bps]) ∧
    ((s.SetSdpBitrateParameters c).state.SetSdpBitrateParameters c).calls =
      [] := by
  refine ⟨?_, ?_, ?_, ?_, ?_⟩
  · intro hnone
    simp [RtpTransportControllerSend.SetSdpBitrateParameters, hnone]
  · intro u hsome
    simp [RtpTransportControllerSend.SetSdpBitrateParameters, hsome]
  · intro hnone
    simp [RtpTransportControllerSend.SetClientBitratePreferences, hnone]
  · intro u hsome
    simp [RtpTransportControllerSend.SetClientBitratePreferences, hsome]
  · have hnone :
        ((s.SetSdpBitrateParameters
            c).state.bitrate_configurator.UpdateWithSdpParameters c).2 =
          none := by
      rw [SetSdpBitrateParameters_configurator]
      simp [RtpBitrateConfigurator.UpdateWithSdpParameters,
            RtpBitrateConfigurator.GetConfig]
    exact SetSdpBitrateParameters_calls_of_none _ _ hnone

/-- Witness for C4: the spec's client-preference scenario propagates the
merged config once. -/
theorem C4_change_detection_propagation_witness :
    ((initController sampleConfig).SetClientBitratePreferences
        ⟨none, none, some 1000000⟩).calls =
      [CcCall.setBweBitrates 50000 300000 1000000] :=
  (C4_change_detection_propagation (initController sampleConfig)
      sampleConfig ⟨none, none, some 1000000⟩).2.2.2.1
    ⟨50000, 300000, 1000000⟩ (by decide)

/-- C8: `SetKeepAliveConfig c` stores `c`, touches nothing else, makes no
downstream call, and `c` is still returned by the accessor after any
sequence of further operations that does not call `SetKeepAliveConfig`. -/
theorem C8_keepalive_last_write_wins (s : RtpTransportControllerSend)
    (c : RtpKeepAliveConfig) (ops : List Op)
    (hops : ∀ op ∈ ops, op.isSetKeepAlive = false) :
    (s.SetKeepAliveConfig c).state.keepalive_config = c ∧
    (s.SetKeepAliveConfig c).state.network_routes = s.network_routes ∧
    (s.SetKeepAliveConfig c).state.bitrate_configurator =
      s.bitrate_configurator ∧
    (s.SetKeepAliveConfig c).calls = [] ∧
    (runOps (s.SetKeepAliveConfig c).state ops).keepalive_config = c := by
  refine ⟨rfl, rfl, rfl, rfl, ?_⟩
  have key : ∀ (l : List Op) (t : RtpTransportControllerSend),
      (∀ op ∈ l, op.isSetKeepAlive = false) →
      (runOps t l).keepalive = t.keepalive := by
    intro l
    induction l with
    | nil => intro t _; rfl
    | cons op rest ih =>
      intro t h
      have h1 := h op (List.mem_cons_self _ _)
      have h2 : ∀ o ∈ rest, o.isSetKeepAlive = false := fun o ho =>
        h o (List.mem_cons_of_mem _ ho)
      show (runOps (applyOp t op).state rest).keepalive = t.keepalive
      rw [ih _ h2, keepalive_applyOp t op h1]
  show (runOps _ ops).keepalive = c
  rw [key ops _ hops]
  rfl

/-- Witness for C8 across an intervening route-change call. -/
theorem C8_keepalive_last_write_wins_witness :
    (runOps ((initController sampleConfig).SetKeepAliveConfig ⟨7⟩).state
        [Op.onNetworkRouteChanged "t1" sampleRoute1]).keepalive_config =
      ⟨7⟩ :=
  (C8_keepalive_last_write_wins (initController sampleConfig) ⟨7⟩
      [Op.onNetworkRouteChanged "t1" sampleRoute1]
      (by intro op hop; simp at hop; rw [hop]; rfl)).2.2.2.2

/-- C9: in every reachable controller state, every route stored in the
route table has `connected = true` — a disconnected route can never be
inserted or stored. -/
theorem C9_stored_routes_connected (s : RtpTransportControllerSend)
    (hreach : Reachable s) :
    ∀ name r, (name, r) ∈ s.network_routes → r.connected = true := by
  induction hreach with
  | init bc =>
    intro name r h
    simp [initController] at h
  | step t op ht ih =>
    intro name r h
    cases op with
    | onNetworkRouteChanged name0 route =>
      rcases mem_OnNetworkRouteChanged_routes t name0 route name r h with
        h2 | ⟨h2, hc⟩
      · exact ih name r h2
      · rw [h2]; exact hc
    | setSdpBitrateParameters c =>
      rw [show (applyOp t (Op.setSdpBitrateParameters c)).state.network_routes
            = t.network_routes from SetSdpBitrateParameters_routes t c] at h
      exact ih name r h
    | setClientBitratePreferences m =>
      rw [show (applyOp t
              (Op.setClientBitratePreferences m)).state.network_routes
            = t.network_routes from
            SetClientBitratePreferences_routes t m] at h
      exact ih name r h
    | setKeepAliveConfig c =>
      exact ih name r h

/-- Witness for C9 at a concrete reachable state. -/
theorem C9_stored_routes_connected_witness :
    sampleRoute1.connected = true :=
  C9_stored_routes_connected
    (applyOp (initController sampleConfig)
        (Op.onNetworkRouteChanged "t1" sampleRoute1)).state
    (Reachable.step (initController sampleConfig)
        (Op.onNetworkRouteChanged "t1" sampleRoute1)
        (Reachable.init sampleConfig))
    "t1" sampleRoute1 (by decide)

/-- C7: the destructor trace stops the worker first and then deregisters
the two modules in the reverse of their registration order; after the stop
event — and in particular after the whole destructor trace — no tick of
either module can be dispatched. -/
theorem C7_teardown_order_and_quiescence :
    dtorWorkerEvents =
      [WorkerEvent.stop,
       WorkerEvent.deRegisterModule ModuleId.send_side_cc,
       WorkerEvent.deRegisterModule ModuleId.pacer] ∧
    registrations ctorWorkerEvents =
      [ModuleId.pacer, ModuleId.send_side_cc] ∧
    deregistrations dtorWorkerEvents =
      (registrations ctorWorkerEvents).reverse ∧
    (∀ m, canTick
        (workerStep (workerRun initialWorker ctorWorkerEvents)
          WorkerEvent.stop) m = false) ∧
    (∀ m, canTick
        (workerRun (workerRun initialWorker ctorWorkerEvents)
          dtorWorkerEvents) m = false) := by
  refine ⟨rfl, rfl, rfl, ?_, ?_⟩ <;> (intro m; cases m <;> rfl)

end WebrtcSend
